import Mathlib

/-!
# Verification of `zignaly_analysis.py`

A shallow embedding of the closed-position analysis script: the
report-table extractor (`get_data_from_html`), its derived-field
computations, the extension dispatch of the entry point, and the
grid-layout computation of `draw_lmplots`.

Modelling conventions:
* Python strings are Lean `String`s; character-level work happens on
  `List Char` (`String.data`).
* Python floats are modelled as exact rationals `ℚ`.  The numerals the
  script parses and the arithmetic on them (division, subtraction) are
  modelled exactly.
* `datetime.fromtimestamp(ms / 1000)` is modelled as the rational number
  of seconds `ms / 1000`; the local-timezone rendering is abstracted away
  and the datetime difference `total_seconds()` becomes rational
  subtraction (both instants are assumed to carry the same UTC offset).
* Python exceptions (`IndexError` from `open_close[1]` or
  `pair.split('/')[1]`, `AttributeError` from a missing `<img>`,
  `ValueError` from `list.index` or `locale.atof`, `ZeroDivisionError`,
  and the explicit `raise ValueError` of the entry point) become an
  `Except` error type whose constructors follow the error names the
  specification gives to the same failure sites.
* A table is its header texts plus its body rows; a row carries the
  integer values of the `datetime` attributes of the `<time>` elements of
  its date cell in document order, the optional `title` attribute of its
  first `<img>`, and the texts of its `<td>` cells in order.  The
  BeautifulSoup document navigation itself is abstracted to this shape.
-/

/-- The non-breaking space U+00A0 on which the script splits a numeric
cell's text to strip the trailing unit suffix (`.split('\xa0')[0]`). -/
def nbsp : Char := Char.ofNat 160

/-- Python's `str.split(sep)` for a one-character separator, on
`List Char`: splits into the (possibly empty) segments between
occurrences of `sep`.  Always returns at least one segment. -/
def splitOnChar (sep : Char) : List Char → List (List Char)
  | [] => [[]]
  | c :: cs =>
    match splitOnChar sep cs with
    | [] => [[]]
    | p :: ps => if c = sep then [] :: p :: ps else (c :: p) :: ps

/-- Joining with a separator character, the inverse of `splitOnChar`. -/
def joinSep (sep : Char) : List (List Char) → List Char
  | [] => []
  | [p] => p
  | p :: ps => p ++ sep :: joinSep sep ps

theorem splitOnChar_ne_nil (sep : Char) (l : List Char) :
    splitOnChar sep l ≠ [] := by
  cases l with
  | nil => simp [splitOnChar]
  | cons c cs =>
    simp only [splitOnChar]
    cases h : splitOnChar sep cs with
    | nil => simp
    | cons p ps =>
      by_cases hc : c = sep <;> simp [hc]

theorem joinSep_splitOnChar (sep : Char) (l : List Char) :
    joinSep sep (splitOnChar sep l) = l := by
  induction l with
  | nil => simp [splitOnChar, joinSep]
  | cons c cs ih =>
    simp only [splitOnChar]
    cases h : splitOnChar sep cs with
    | nil => exact absurd h (splitOnChar_ne_nil sep cs)
    | cons p ps =>
      rw [h] at ih
      by_cases hc : c = sep
      · subst hc
        simp only [if_pos rfl, joinSep]
        cases ps <;> simpa [joinSep] using ih
      · simp only [if_neg hc]
        cases ps <;> simpa [joinSep] using ih

theorem splitOnChar_of_not_mem (sep : Char) (l : List Char)
    (h : sep ∉ l) : splitOnChar sep l = [l] := by
  induction l with
  | nil => simp [splitOnChar]
  | cons c cs ih =>
    simp only [List.mem_cons, not_or] at h
    have hc : ¬c = sep := fun hcc => h.1 hcc.symm
    simp [splitOnChar, ih h.2, hc]

theorem length_splitOnChar (sep : Char) (l : List Char) :
    (splitOnChar sep l).length = l.count sep + 1 := by
  induction l with
  | nil => simp [splitOnChar]
  | cons c cs ih =>
    simp only [splitOnChar]
    cases h : splitOnChar sep cs with
    | nil => exact absurd h (splitOnChar_ne_nil sep cs)
    | cons p ps =>
      rw [h] at ih
      simp only [List.length_cons] at ih
      dsimp only
      by_cases hc : c = sep
      · subst hc
        rw [if_pos rfl]
        simp [List.count_cons]
        omega
      · rw [if_neg hc]
        simp [List.count_cons, hc]
        omega

/-- The first segment of a `split`: Python's `s.split(sep)[0]`
(total, since `split` always yields at least one segment). -/
def firstPart (sep : Char) (l : List Char) : List Char :=
  match splitOnChar sep l with
  | [] => []
  | p :: _ => p

/-- `locale.delocalize` for the `en_US` locale: drop the `,` thousands
separators (the decimal point is already `.`). -/
def delocalize (l : List Char) : List Char := l.filter (fun c => c ≠ ',')

/-- The value of a digit string read in base 10. -/
def digitsToNat (l : List Char) : Nat :=
  l.foldl (fun acc c => 10 * acc + (c.toNat - 48)) 0

/-- Python's `float(s)` on the plain decimal numerals the script meets:
an optional sign, then digits with at most one decimal point, at least
one digit overall.  (Exponents, `inf`/`nan` and surrounding whitespace
are outside the inputs this program parses and are not modelled.) -/
def parseFloat (s : List Char) : Option ℚ :=
  let sign : ℚ := if s.head? = some '-' then -1 else 1
  let body : List Char :=
    if s.head? = some '-' ∨ s.head? = some '+' then s.tail else s
  match splitOnChar '.' body with
  | [intPart] =>
    if intPart ≠ [] ∧ intPart.all Char.isDigit then
      some (sign * digitsToNat intPart)
    else none
  | [intPart, fracPart] =>
    if (intPart ≠ [] ∨ fracPart ≠ []) ∧ intPart.all Char.isDigit
        ∧ fracPart.all Char.isDigit then
      some (sign * ((digitsToNat intPart : ℚ)
        + (digitsToNat fracPart : ℚ) / (10 : ℚ) ^ fracPart.length))
    else none
  | _ => none

/-- The numeric-cell parsing of lines 81–82 of the script:
`locale.atof(text.split('\xa0')[0])` — strip the trailing unit suffix
after the non-breaking space, drop thousands separators, parse the
remaining decimal numeral. -/
def parseNumCell (l : List Char) : Option ℚ :=
  parseFloat (delocalize (firstPart nbsp l))

example : parseNumCell ("1,234.56".data ++ nbsp :: "USDT".data)
    = some (123456 / 100 : ℚ) := by
  simp [parseNumCell, parseFloat, delocalize, firstPart, splitOnChar,
    digitsToNat, nbsp]
  norm_num
example : parseNumCell "0.0500".data = some (1 / 20 : ℚ) := by
  simp [parseNumCell, parseFloat, delocalize, firstPart, splitOnChar,
    digitsToNat, nbsp]
  norm_num
example : parseNumCell "10".data = some (10 : ℚ) := by
  simp [parseNumCell, parseFloat, delocalize, firstPart, splitOnChar,
    digitsToNat, nbsp]

/-- The failure modes of the script, named after the errors the
specification assigns to each failure site of the Python code (which
raises `IndexError`, `AttributeError`, `ValueError` or
`ZeroDivisionError` at the corresponding places). -/
inductive PyError where
  /-- fewer than two `<time>` markers in the date cell
  (`open_close[0]` / `open_close[1]` raising `IndexError`). -/
  | malformedTimestamp
  /-- no `<img>` in the row (`row.find('img')` returning `None`). -/
  | missingImage
  /-- a required header name absent (`table_header.index` raising
  `ValueError`). -/
  | missingColumn
  /-- a resolved column index beyond the row's cells
  (`row_cells[...]` raising `IndexError`). -/
  | cellOutOfRange
  /-- `locale.atof` unable to parse a numeric cell (`ValueError`). -/
  | numeralParse
  /-- `Profit / Invested` with `Invested == 0` (`ZeroDivisionError`). -/
  | zeroDivision
  /-- no `/` in the pair (`pair.split('/')[1]` raising `IndexError`). -/
  | malformedPair
  /-- the entry point's `raise ValueError` for an extension that is
  neither `.csv` nor `.html`. -/
  | unsupportedFormat
deriving DecidableEq

/-- One `<tr>` of the table body, abstracted to the data the script
reads from it: the integer values of the `datetime` attributes of the
`<time>` elements inside the date cell (in document order), the `title`
attribute of the row's first `<img>` (`none` when there is no image),
and the texts of the row's `<td>` cells in order. -/
structure HtmlRow where
  times : List Int
  imgTitle : Option String
  cells : List String
deriving DecidableEq

/-- The striped table of the report page: the texts of the `<th>` header
cells and the body rows. -/
structure HtmlTable where
  header : List String
  rows : List HtmlRow
deriving DecidableEq

/-- One parsed closed position, the dictionary built per row by
`get_data_from_html` (keys `Open`, `Close`, `Provider`, `Pair`,
`Status`, `Buy Price`, `Sell Price`, `Amount`, `Invested`, `Profit`,
`Duration (s)`, `Profit (%)`, `Asset`, `Currency`).  Instants are in
seconds since the epoch, as exact rationals. -/
structure PositionRecord where
  openTime : ℚ
  closeTime : ℚ
  provider : String
  pair : String
  status : String
  buyPrice : ℚ
  sellPrice : ℚ
  amount : ℚ
  invested : ℚ
  profit : ℚ
  durationS : ℚ
  profitPct : ℚ
  asset : String
  currency : String
deriving DecidableEq

/-- Python's `list.index`: the index of the first occurrence, `none`
when absent (where Python raises `ValueError`). -/
def firstIndexOf (name : String) : List String → Option Nat
  | [] => none
  | h :: t => if h = name then some 0 else (firstIndexOf name t).map (· + 1)

/-- `table_header.index(name)`, failing with the missing-column error. -/
def lookupIdx (header : List String) (name : String) : Except PyError Nat :=
  match firstIndexOf name header with
  | some i => .ok i
  | none => .error .missingColumn

/-- `row_cells[i].text`, failing when `i` is out of range. -/
def cellText (cells : List String) (i : Nat) : Except PyError String :=
  match cells.get? i with
  | some t => .ok t
  | none => .error .cellOutOfRange

/-- `row_cells[table_header.index(name)].text`. -/
def lookupCell (header cells : List String) (name : String) :
    Except PyError String :=
  match lookupIdx header name with
  | .error e => .error e
  | .ok i => cellText cells i

/-- `locale.atof(row_cells[table_header.index(name)].text.split('\xa0')[0])`:
resolve the column, fetch the cell, parse the numeral. -/
def statValue (header cells : List String) (name : String) :
    Except PyError ℚ :=
  match lookupCell header cells name with
  | .error e => .error e
  | .ok t =>
    match parseNumCell t.data with
    | some v => .ok v
    | none => .error .numeralParse

/-- The body of the `for row in table_rows` loop of
`get_data_from_html` (lines 58–103 of the script), in the order the
Python statements execute: the two time markers, the provider, the
`Pair` and `Status` cells, the five numeric columns, the renaming of
`Profit BTC` to `Profit`, the duration, the profit percentage (where
Python would raise `ZeroDivisionError`), and finally the pair split
(where `split('/')[1]` raises on a pair without `/`). -/
def parseRow (header : List String) (r : HtmlRow) :
    Except PyError PositionRecord :=
  match r.times.get? 0 with
  | none => .error .malformedTimestamp
  | some openMs =>
  match r.times.get? 1 with
  | none => .error .malformedTimestamp
  | some closeMs =>
  match r.imgTitle with
  | none => .error .missingImage
  | some provider =>
  match lookupCell header r.cells "Pair" with
  | .error e => .error e
  | .ok pair =>
  match lookupCell header r.cells "Status" with
  | .error e => .error e
  | .ok status =>
  match statValue header r.cells "Buy Price" with
  | .error e => .error e
  | .ok buyPrice =>
  match statValue header r.cells "Sell Price" with
  | .error e => .error e
  | .ok sellPrice =>
  match statValue header r.cells "Amount" with
  | .error e => .error e
  | .ok amount =>
  match statValue header r.cells "Invested" with
  | .error e => .error e
  | .ok invested =>
  match statValue header r.cells "Profit BTC" with
  | .error e => .error e
  | .ok profit =>
  if invested = 0 then .error .zeroDivision
  else
  match splitOnChar '/' pair.data with
  | asset :: currency :: _ =>
    .ok { openTime := (openMs : ℚ) / 1000
        , closeTime := (closeMs : ℚ) / 1000
        , provider := provider
        , pair := pair
        , status := status
        , buyPrice := buyPrice
        , sellPrice := sellPrice
        , amount := amount
        , invested := invested
        , profit := profit
        , durationS := (closeMs : ℚ) / 1000 - (openMs : ℚ) / 1000
        , profitPct := profit / invested
        , asset := String.mk asset
        , currency := String.mk currency }
  | _ => .error .malformedPair

/-- `get_data_from_html`, on the abstracted table: one record per body
row, in document order; the first failing row aborts the whole
extraction with its error and no partial result (the Python exception
propagates out of the loop). -/
def get_data_from_html (t : HtmlTable) : Except PyError (List PositionRecord) :=
  t.rows.mapM (parseRow t.header)

theorem parseRow_ok_shape (header : List String) (r : HtmlRow)
    (rec : PositionRecord) (h : parseRow header r = .ok rec) :
    ∃ m1 m2 a b rest,
      r.times.get? 0 = some m1 ∧ r.times.get? 1 = some m2 ∧
      rec.openTime = (m1 : ℚ) / 1000 ∧ rec.closeTime = (m2 : ℚ) / 1000 ∧
      rec.durationS = rec.closeTime - rec.openTime ∧
      rec.invested ≠ 0 ∧ rec.profitPct = rec.profit / rec.invested ∧
      splitOnChar '/' rec.pair.data = a :: b :: rest ∧
      rec.asset = String.mk a ∧ rec.currency = String.mk b := by
  unfold parseRow at h
  repeat (split at h <;> try exact Except.noConfusion h)
  injection h with h
  subst h
  exact ⟨_, _, _, _, _, by assumption, by assumption, rfl, rfl, rfl,
    by assumption, rfl, by assumption, rfl, rfl⟩

/-- A well-formed trading pair: exactly one `/` separator, so that the
split yields precisely the asset and the currency. -/
def validPair (p : String) : Prop := p.data.count '/' = 1

instance (p : String) : Decidable (validPair p) := by
  unfold validPair; infer_instance

/-- The header of the sample table used to instantiate the row-level
theorems: all seven required columns, in their natural order. -/
def sampleHeader : List String :=
  ["Pair", "Status", "Buy Price", "Sell Price", "Amount", "Invested",
   "Profit BTC"]

/-- A numeric cell text: numeral, non-breaking space, unit suffix. -/
def suffixed (num unit : String) : String :=
  String.mk (num.data ++ nbsp :: unit.data)

/-- A well-formed sample row: opened at epoch millisecond 1000, closed
at 3601000, bought 2 BTC at 3,500 USDT, sold at 3,600 USDT, invested
7,000 USDT, profit 200 USDT. -/
def sampleRow : HtmlRow :=
  { times := [1000, 3601000]
  , imgTitle := some "SignalCo"
  , cells := ["BTC/USDT", "Closed",
              suffixed "3,500.00" "USDT", suffixed "3,600.00" "USDT",
              "2", suffixed "7,000.00" "USDT", suffixed "200.00" "USDT"] }

/-- The record the extractor produces for `sampleRow`. -/
def sampleRec : PositionRecord :=
  { openTime := 1, closeTime := 3601, provider := "SignalCo"
  , pair := "BTC/USDT", status := "Closed", buyPrice := 3500
  , sellPrice := 3600, amount := 2, invested := 7000, profit := 200
  , durationS := 3600, profitPct := 1 / 35
  , asset := "BTC", currency := "USDT" }

theorem parseRow_sample : parseRow sampleHeader sampleRow = .ok sampleRec := by
  simp [parseRow, sampleHeader, sampleRow, sampleRec, lookupCell, lookupIdx,
    cellText, statValue, firstIndexOf, parseNumCell, parseFloat, delocalize,
    firstPart, splitOnChar, digitsToNat, nbsp, suffixed]
  norm_num

/-- C1: for every row the report-table extractor accepts whose pair
field is a valid pair (exactly one `/`), concatenating the derived
asset field, `/`, and the derived currency field reproduces the
original pair field: `asset + "/" + currency == pair`. -/
theorem extracted_pair_recomposes (header : List String) (r : HtmlRow)
    (rec : PositionRecord) (h : parseRow header r = .ok rec)
    (hv : validPair rec.pair) :
    rec.asset ++ "/" ++ rec.currency = rec.pair := by
  obtain ⟨m1, m2, a, b, rest, _, _, _, _, _, _, _, hsplit, ha, hb⟩ :=
    parseRow_ok_shape header r rec h
  have hlen := length_splitOnChar '/' rec.pair.data
  rw [hsplit, hv] at hlen
  have hrest : rest = [] := by
    simp only [List.length_cons] at hlen
    have : rest.length = 0 := by omega
    exact List.length_eq_zero.mp this
  subst hrest
  have hjoin := joinSep_splitOnChar '/' rec.pair.data
  rw [hsplit] at hjoin
  have hj2 : joinSep '/' [a, b] = a ++ '/' :: b := rfl
  rw [hj2] at hjoin
  rw [ha, hb]
  apply String.ext
  simpa [String.data_append] using hjoin

/-- C1 witness: the sample row's record satisfies the recomposition
invariant, via the theorem applied at the sample input. -/
theorem extracted_pair_recomposes_witness :
    parseRow sampleHeader sampleRow = .ok sampleRec ∧
    validPair sampleRec.pair ∧
    sampleRec.asset ++ "/" ++ sampleRec.currency = sampleRec.pair :=
  ⟨parseRow_sample, by decide,
    extracted_pair_recomposes sampleHeader sampleRow sampleRec
      parseRow_sample (by decide)⟩

/-- C3: every extracted record's open and close instants are the first
and second time markers of the row (in document order), each read as an
integer epoch-millisecond value divided by 1000, and its duration is
their difference in seconds. -/
theorem times_from_markers (header : List String) (r : HtmlRow)
    (rec : PositionRecord) (h : parseRow header r = .ok rec) :
    ∃ m1 m2 : Int,
      r.times.get? 0 = some m1 ∧ r.times.get? 1 = some m2 ∧
      rec.openTime = (m1 : ℚ) / 1000 ∧ rec.closeTime = (m2 : ℚ) / 1000 ∧
      rec.durationS = rec.closeTime - rec.openTime := by
  obtain ⟨m1, m2, a, b, rest, h1, h2, h3, h4, h5, _, _, _, _, _⟩ :=
    parseRow_ok_shape header r rec h
  exact ⟨m1, m2, h1, h2, h3, h4, h5⟩

/-- C3 witness: instantiated on the sample row, whose markers are
milliseconds 1000 and 3601000. -/
theorem times_from_markers_witness :
    parseRow sampleHeader sampleRow = .ok sampleRec ∧
    (∃ m1 m2 : Int,
      sampleRow.times.get? 0 = some m1 ∧ sampleRow.times.get? 1 = some m2 ∧
      sampleRec.openTime = (m1 : ℚ) / 1000 ∧
      sampleRec.closeTime = (m2 : ℚ) / 1000 ∧
      sampleRec.durationS = sampleRec.closeTime - sampleRec.openTime) :=
  ⟨parseRow_sample,
    times_from_markers sampleHeader sampleRow sampleRec parseRow_sample⟩

/-- C4: every extracted record with nonzero invested amount has
`profit_pct == profit / invested`. -/
theorem profit_pct_is_ratio (header : List String) (r : HtmlRow)
    (rec : PositionRecord) (h : parseRow header r = .ok rec)
    (hi : rec.invested ≠ 0) :
    rec.profitPct = rec.profit / rec.invested := by
  obtain ⟨_, _, _, _, _, _, _, _, _, _, _, hpct, _, _, _⟩ :=
    parseRow_ok_shape header r rec h
  exact hpct

/-- C4 witness: the sample record, whose invested amount 7000 is
nonzero and whose profit percentage is 200 / 7000. -/
theorem profit_pct_is_ratio_witness :
    parseRow sampleHeader sampleRow = .ok sampleRec ∧
    sampleRec.invested ≠ 0 ∧
    sampleRec.profitPct = sampleRec.profit / sampleRec.invested :=
  ⟨parseRow_sample, by norm_num [sampleRec],
    profit_pct_is_ratio sampleHeader sampleRow sampleRec parseRow_sample
      (by norm_num [sampleRec])⟩

/-- The single data row of the end-to-end scenario: pair `ETH/BTC`,
status `Closed`, provider `Acme Signals`, buy price `0.0500`, sell
price `0.0520`, amount `10`, invested `0.5000`, profit `0.0200`, open
marker 1000000, close marker 1003600000. -/
def c2row : HtmlRow :=
  { times := [1000000, 1003600000]
  , imgTitle := some "Acme Signals"
  , cells := ["ETH/BTC", "Closed", "0.0500", "0.0520", "10", "0.5000",
              "0.0200"] }

/-- The scenario document: the seven required columns and the one row. -/
def c2table : HtmlTable := { header := sampleHeader, rows := [c2row] }

/-- The record the extractor actually produces for the scenario row:
open at second 1000, close at second 1003600, so a duration of
1002600 seconds (not 3600). -/
def c2rec : PositionRecord :=
  { openTime := 1000, closeTime := 1003600, provider := "Acme Signals"
  , pair := "ETH/BTC", status := "Closed", buyPrice := 1 / 20
  , sellPrice := 13 / 250, amount := 10, invested := 1 / 2
  , profit := 1 / 50, durationS := 1002600, profitPct := 1 / 25
  , asset := "ETH", currency := "BTC" }

theorem parseRow_c2 : parseRow sampleHeader c2row = .ok c2rec := by
  simp [parseRow, sampleHeader, c2row, c2rec, lookupCell, lookupIdx,
    cellText, statValue, firstIndexOf, parseNumCell, parseFloat, delocalize,
    firstPart, splitOnChar, digitsToNat, nbsp]
  norm_num

theorem get_html_c2 : get_data_from_html c2table = .ok [c2rec] := by
  simp [get_data_from_html, c2table, List.mapM, List.mapM.loop, parseRow_c2,
    Except.bind, Except.pure]

/-- C2 counterexample: on exactly the claimed markup document the
extractor produces one record, but its duration is 1002600 seconds —
markers 1000000 ms and 1003600000 ms are 1002600 s apart — not the
claimed 3600. -/
theorem end_to_end_scenario_cex :
    get_data_from_html c2table = .ok [c2rec] ∧ c2rec.durationS ≠ 3600 :=
  ⟨get_html_c2, by norm_num [c2rec]⟩

/-- C2 amended: for the scenario document the extractor produces
exactly one record with asset `ETH`, currency `BTC`,
profit_pct 0.04 = 1/25, and duration 1002600.0 seconds. -/
theorem end_to_end_scenario_amended :
    get_data_from_html c2table = .ok [c2rec] ∧
    c2rec.asset = "ETH" ∧ c2rec.currency = "BTC" ∧
    c2rec.durationS = 1002600 ∧ c2rec.profitPct = 1 / 25 :=
  ⟨get_html_c2, rfl, rfl, rfl, rfl⟩

/-- C5: the numeric-cell parsing of the five statistics columns, on the
formatted text `1,234.56␣USDT` (non-breaking-space separator before the
unit), strips the suffix, drops the comma thousands separator, and
yields 1234.56 — both for the bare parsing function and for the full
column lookup. -/
theorem numeral_cell_parsing :
    parseNumCell ("1,234.56".data ++ nbsp :: "USDT".data)
      = some (1234.56 : ℚ) ∧
    statValue ["Buy Price"] [suffixed "1,234.56" "USDT"] "Buy Price"
      = .ok (1234.56 : ℚ) := by
  constructor
  · simp [parseNumCell, parseFloat, delocalize, firstPart, splitOnChar,
      digitsToNat, nbsp]
    norm_num
  · simp [statValue, lookupCell, lookupIdx, cellText, firstIndexOf, suffixed,
      parseNumCell, parseFloat, delocalize, firstPart, splitOnChar,
      digitsToNat, nbsp]
    norm_num

/-- C6: a data row whose pair cell has no `/`, in a row where every
earlier step of the loop body succeeds (both time markers present, an
image present, all required columns resolving and parsing, nonzero
invested), makes the extractor fail with the malformed-pair error
instead of producing a record. -/
theorem malformed_pair_errors (header : List String) (r : HtmlRow)
    (m1 m2 : Int) (prov pairStr st : String) (v1 v2 v3 v4 v5 : ℚ)
    (h1 : r.times.get? 0 = some m1) (h2 : r.times.get? 1 = some m2)
    (h3 : r.imgTitle = some prov)
    (h4 : lookupCell header r.cells "Pair" = .ok pairStr)
    (h5 : lookupCell header r.cells "Status" = .ok st)
    (h6 : statValue header r.cells "Buy Price" = .ok v1)
    (h7 : statValue header r.cells "Sell Price" = .ok v2)
    (h8 : statValue header r.cells "Amount" = .ok v3)
    (h9 : statValue header r.cells "Invested" = .ok v4)
    (h10 : statValue header r.cells "Profit BTC" = .ok v5)
    (h11 : v4 ≠ 0)
    (h12 : '/' ∉ pairStr.data) :
    parseRow header r = .error .malformedPair := by
  unfold parseRow
  rw [h1, h2, h3, h4, h5, h6, h7, h8, h9, h10]
  dsimp only
  rw [if_neg h11, splitOnChar_of_not_mem '/' pairStr.data h12]

/-- A row identical in shape to the sample but with a pair cell that
contains no `/`. -/
def c6row : HtmlRow :=
  { times := [1000, 2000]
  , imgTitle := some "SignalCo"
  , cells := ["ETHBTC", "Closed", "1", "2", "3", "4", "5"] }

/-- C6 witness: the theorem applied to the concrete `ETHBTC` row. -/
theorem malformed_pair_errors_witness :
    parseRow sampleHeader c6row = .error .malformedPair :=
  malformed_pair_errors sampleHeader c6row 1000 2000 "SignalCo" "ETHBTC"
    "Closed" 1 2 3 4 5 rfl rfl rfl rfl rfl
    (by simp [statValue, lookupCell, lookupIdx, cellText, firstIndexOf,
      c6row, sampleHeader, parseNumCell, parseFloat, delocalize, firstPart,
      splitOnChar, digitsToNat, nbsp])
    (by simp [statValue, lookupCell, lookupIdx, cellText, firstIndexOf,
      c6row, sampleHeader, parseNumCell, parseFloat, delocalize, firstPart,
      splitOnChar, digitsToNat, nbsp])
    (by simp [statValue, lookupCell, lookupIdx, cellText, firstIndexOf,
      c6row, sampleHeader, parseNumCell, parseFloat, delocalize, firstPart,
      splitOnChar, digitsToNat, nbsp])
    (by simp [statValue, lookupCell, lookupIdx, cellText, firstIndexOf,
      c6row, sampleHeader, parseNumCell, parseFloat, delocalize, firstPart,
      splitOnChar, digitsToNat, nbsp])
    (by simp [statValue, lookupCell, lookupIdx, cellText, firstIndexOf,
      c6row, sampleHeader, parseNumCell, parseFloat, delocalize, firstPart,
      splitOnChar, digitsToNat, nbsp])
    (by norm_num) (by decide)

/-- Python's `os.path.splitext(p)[1]` (POSIX rules): the suffix from
the last `.` of the basename, empty when the basename has no dot or
when every character before its last dot is itself a dot (so dotfiles
like `.bashrc` have no extension). -/
def pyExt (p : String) : String :=
  let base := (p.data.reverse.takeWhile (fun c => c ≠ '/')).reverse
  let afterDot := base.reverse.takeWhile (fun c => c ≠ '.')
  if '.' ∈ base then
    if (base.take (base.length - afterDot.length - 1)).all
        (fun c => c = '.') then ""
    else String.mk ('.' :: afterDot.reverse)
  else ""

example : pyExt "input-20190122.html" = ".html" := by decide
example : pyExt ".bashrc" = "" := by decide
example : pyExt "dir.x/file" = "" := by decide
example : pyExt "a..txt" = ".txt" := by decide

/-- Which loader the entry point hands the file to. -/
inductive LoadSource where
  | csv (filename : String)
  | html (filename : String)
deriving DecidableEq

/-- The format dispatch of the `__main__` block (lines 150–158): split
off the extension, send `.csv` to `get_data_from_csv` and `.html` to
`get_data_from_html`, and raise for anything else.  The dispatch
happens before either loader touches the file, so an unsupported
extension fails with no parsing attempted. -/
def mainDispatch (p : String) : Except PyError LoadSource :=
  if pyExt p = ".csv" then .ok (.csv p)
  else if pyExt p = ".html" then .ok (.html p)
  else .error .unsupportedFormat

/-- C7: a path whose extension is neither `.csv` nor `.html` makes the
entry point fail with the unsupported-format error before any parsing,
while the two supported extensions dispatch to the tabular loader and
the report-table extractor respectively. -/
theorem dispatch_by_extension (p : String) :
    (pyExt p ≠ ".csv" → pyExt p ≠ ".html" →
      mainDispatch p = .error .unsupportedFormat) ∧
    (pyExt p = ".csv" → mainDispatch p = .ok (.csv p)) ∧
    (pyExt p = ".html" → mainDispatch p = .ok (.html p)) := by
  refine ⟨fun h1 h2 => ?_, fun h => ?_, fun h => ?_⟩
  · simp [mainDispatch, h1, h2]
  · simp [mainDispatch, h]
  · simp [mainDispatch, h]

/-- C7 witness: `.txt` is rejected, `.csv` and `.html` are routed. -/
theorem dispatch_by_extension_witness :
    mainDispatch "input-20190122.txt" = .error .unsupportedFormat ∧
    mainDispatch "input-20190122.csv" = .ok (.csv "input-20190122.csv") ∧
    mainDispatch "input-20190122.html" = .ok (.html "input-20190122.html") :=
  ⟨(dispatch_by_extension "input-20190122.txt").1 (by decide) (by decide),
   (dispatch_by_extension "input-20190122.csv").2.1 (by decide),
   (dispatch_by_extension "input-20190122.html").2.2 (by decide)⟩

/-- The grid layout `draw_lmplots` computes before drawing: the number
of subplot rows and columns, and the subplot slot (counting from 1)
assigned to each combination in order. -/
structure PlotLayout where
  numRows : Nat
  numCols : Nat
  subplots : List (Nat × (String × String × String))
deriving DecidableEq

/-- `draw_lmplots` (lines 108–141): the over-16 guard is commented out
in the source, so no combination count is rejected; the grid is
`num_columns = floor(sqrt(num_plots))` (`Nat.sqrt` models the exact
float `math.floor(math.sqrt(...))` for the list lengths at hand) and
`num_rows = ceil(num_plots / num_columns)` — a computation that raises
`ZeroDivisionError` when `num_plots = 0` makes `num_columns = 0`. -/
def draw_lmplots (combinations : List (String × String × String)) :
    Except PyError PlotLayout :=
  let numPlots := combinations.length
  let numCols := Nat.sqrt numPlots
  if numCols = 0 then .error .zeroDivision
  else .ok { numRows := (numPlots + numCols - 1) / numCols
           , numCols := numCols
           , subplots := combinations.enum.map (fun p => (p.1 + 1, p.2)) }

/-- Seventeen plot combinations — more than sixteen. -/
def c9combos : List (String × String × String) :=
  List.replicate 17 ("Duration (s)", "Profit (%)", "Asset")

/-- C9 counterexample: with 17 combinations the renderer does not fail
at all — the guard is commented out — and instead lays out a 5-row,
4-column grid of all 17 plots. -/
theorem too_many_plots_cex :
    draw_lmplots c9combos = .ok
      { numRows := 5, numCols := 4
      , subplots := c9combos.enum.map (fun p => (p.1 + 1, p.2)) } := by
  have h17 : Nat.sqrt 17 = 4 := by norm_num
  simp [draw_lmplots, c9combos, h17]

/-- C9 amended: for every combination list longer than 16 the renderer
(with the guard disabled, as in the source) succeeds and lays out the
floor-sqrt grid instead of failing. -/
theorem over_sixteen_draws_anyway (combos : List (String × String × String))
    (h : 16 < combos.length) :
    draw_lmplots combos = .ok
      { numRows := (combos.length + Nat.sqrt combos.length - 1)
                     / Nat.sqrt combos.length
      , numCols := Nat.sqrt combos.length
      , subplots := combos.enum.map (fun p => (p.1 + 1, p.2)) } := by
  unfold draw_lmplots
  have hpos : 0 < Nat.sqrt combos.length := Nat.sqrt_pos.mpr (by omega)
  rw [if_neg (by omega)]

/-- C9 amended witness: the instance at the 17-combination list. -/
theorem over_sixteen_draws_anyway_witness :
    16 < c9combos.length ∧
    draw_lmplots c9combos = .ok
      { numRows := (c9combos.length + Nat.sqrt c9combos.length - 1)
                     / Nat.sqrt c9combos.length
      , numCols := Nat.sqrt c9combos.length
      , subplots := c9combos.enum.map (fun p => (p.1 + 1, p.2)) } :=
  ⟨by decide, over_sixteen_draws_anyway c9combos (by decide)⟩

/-- C10: calling the renderer with no combinations makes the column
count `floor(sqrt(0)) = 0` and the row-count division by that column
count fail with a division by zero, rather than returning an empty
grid. -/
theorem empty_combinations_divide_by_zero :
    draw_lmplots [] = .error .zeroDivision ∧ Nat.sqrt 0 = 0 := by
  constructor
  · simp [draw_lmplots]
  · exact Nat.sqrt_zero

/-- The seven header names the extractor resolves, in the order the
loop body looks them up: `Pair` and `Status` (lines 76–77), then the
five statistics columns of line 80. -/
def requiredCols : List String :=
  ["Pair", "Status", "Buy Price", "Sell Price", "Amount", "Invested",
   "Profit BTC"]

/-- The required columns whose cells go through the numeral parsing. -/
def numericCols : List String :=
  ["Buy Price", "Sell Price", "Amount", "Invested", "Profit BTC"]

/-- Well-formedness of one row with respect to one column name: if the
name resolves in the header, the row must have a cell at that index,
and for a statistics column the cell must parse as a numeral.  (A name
absent from the header is unconstrained.) -/
def colOkB (header cells : List String) (name : String) : Bool :=
  match firstIndexOf name header with
  | none => true
  | some i =>
    match cells.get? i with
    | none => false
    | some t =>
      if numericCols.contains name then (parseNumCell t.data).isSome
      else true

theorem firstIndexOf_eq_none (name : String) (l : List String) :
    firstIndexOf name l = none ↔ name ∉ l := by
  induction l with
  | nil => simp [firstIndexOf]
  | cons h t ih =>
    simp only [firstIndexOf]
    by_cases hh : h = name
    · simp [hh]
    · simp only [if_neg hh, Option.map_eq_none', ih, List.mem_cons, not_or]
      constructor
      · intro hn
        exact ⟨fun he => hh he.symm, hn⟩
      · intro hn
        exact hn.2

theorem lookupCell_missing (header cells : List String) (name : String)
    (h : firstIndexOf name header = none) :
    lookupCell header cells name = .error .missingColumn := by
  simp [lookupCell, lookupIdx, h]

theorem statValue_missing (header cells : List String) (name : String)
    (h : firstIndexOf name header = none) :
    statValue header cells name = .error .missingColumn := by
  simp [statValue, lookupCell, lookupIdx, h]

theorem lookupCell_eq (header cells : List String) (name : String)
    (i : Nat) (t : String) (hi : firstIndexOf name header = some i)
    (hc : cells.get? i = some t) :
    lookupCell header cells name = .ok t := by
  unfold lookupCell lookupIdx
  rw [hi]
  dsimp only
  unfold cellText
  rw [hc]

theorem lookupCell_ok_of_colOkB (header cells : List String) (name : String)
    (i : Nat) (hi : firstIndexOf name header = some i)
    (hok : colOkB header cells name = true) :
    ∃ t, lookupCell header cells name = .ok t := by
  unfold colOkB at hok
  rw [hi] at hok
  dsimp only at hok
  cases hc : cells.get? i with
  | none =>
    rw [hc] at hok
    dsimp only at hok
    exact absurd hok (by simp)
  | some t => exact ⟨t, lookupCell_eq header cells name i t hi hc⟩

theorem statValue_ok_of_colOkB (header cells : List String) (name : String)
    (i : Nat) (hi : firstIndexOf name header = some i)
    (hnum : numericCols.contains name = true)
    (hok : colOkB header cells name = true) :
    ∃ v, statValue header cells name = .ok v := by
  unfold colOkB at hok
  rw [hi] at hok
  dsimp only at hok
  cases hc : cells.get? i with
  | none =>
    rw [hc] at hok
    dsimp only at hok
    exact absurd hok (by simp)
  | some t =>
    rw [hc] at hok
    dsimp only at hok
    rw [if_pos hnum] at hok
    cases hp : parseNumCell t.data with
    | none => rw [hp] at hok; exact absurd hok (by simp)
    | some v =>
      refine ⟨v, ?_⟩
      unfold statValue
      rw [lookupCell_eq header cells name i t hi hc]
      dsimp only
      rw [hp]

theorem parseRow_missing_column (header : List String) (r : HtmlRow)
    (m1 m2 : Int) (prov : String)
    (h1 : r.times.get? 0 = some m1) (h2 : r.times.get? 1 = some m2)
    (h3 : r.imgTitle = some prov)
    (hok : ∀ name ∈ requiredCols, colOkB header r.cells name = true)
    (hmiss : ∃ name ∈ requiredCols, name ∉ header) :
    parseRow header r = .error .missingColumn := by
  unfold parseRow
  rw [h1, h2, h3]
  dsimp only
  cases hP : firstIndexOf "Pair" header with
  | none => rw [lookupCell_missing header r.cells "Pair" hP]
  | some iP =>
  obtain ⟨tP, hPc⟩ := lookupCell_ok_of_colOkB header r.cells "Pair" iP hP
    (hok "Pair" (by simp [requiredCols]))
  rw [hPc]
  dsimp only
  cases hS : firstIndexOf "Status" header with
  | none => rw [lookupCell_missing header r.cells "Status" hS]
  | some iS =>
  obtain ⟨tS, hSc⟩ := lookupCell_ok_of_colOkB header r.cells "Status" iS hS
    (hok "Status" (by simp [requiredCols]))
  rw [hSc]
  dsimp only
  cases hB : firstIndexOf "Buy Price" header with
  | none => rw [statValue_missing header r.cells "Buy Price" hB]
  | some iB =>
  obtain ⟨vB, hBc⟩ := statValue_ok_of_colOkB header r.cells "Buy Price" iB hB
    (by decide) (hok "Buy Price" (by simp [requiredCols]))
  rw [hBc]
  dsimp only
  cases hSe : firstIndexOf "Sell Price" header with
  | none => rw [statValue_missing header r.cells "Sell Price" hSe]
  | some iSe =>
  obtain ⟨vSe, hSec⟩ := statValue_ok_of_colOkB header r.cells "Sell Price"
    iSe hSe (by decide) (hok "Sell Price" (by simp [requiredCols]))
  rw [hSec]
  dsimp only
  cases hA : firstIndexOf "Amount" header with
  | none => rw [statValue_missing header r.cells "Amount" hA]
  | some iA =>
  obtain ⟨vA, hAc⟩ := statValue_ok_of_colOkB header r.cells "Amount" iA hA
    (by decide) (hok "Amount" (by simp [requiredCols]))
  rw [hAc]
  dsimp only
  cases hI : firstIndexOf "Invested" header with
  | none => rw [statValue_missing header r.cells "Invested" hI]
  | some iI =>
  obtain ⟨vI, hIc⟩ := statValue_ok_of_colOkB header r.cells "Invested" iI hI
    (by decide) (hok "Invested" (by simp [requiredCols]))
  rw [hIc]
  dsimp only
  cases hPB : firstIndexOf "Profit BTC" header with
  | none => rw [statValue_missing header r.cells "Profit BTC" hPB]
  | some iPB =>
  obtain ⟨vPB, hPBc⟩ := statValue_ok_of_colOkB header r.cells "Profit BTC"
    iPB hPB (by decide) (hok "Profit BTC" (by simp [requiredCols]))
  rw [hPBc]
  dsimp only
  obtain ⟨name, hmem, hnot⟩ := hmiss
  rw [← firstIndexOf_eq_none name header] at hnot
  simp only [requiredCols, List.mem_cons, List.not_mem_nil, or_false] at hmem
  rcases hmem with rfl | rfl | rfl | rfl | rfl | rfl | rfl
  · rw [hP] at hnot; exact Option.noConfusion hnot
  · rw [hS] at hnot; exact Option.noConfusion hnot
  · rw [hB] at hnot; exact Option.noConfusion hnot
  · rw [hSe] at hnot; exact Option.noConfusion hnot
  · rw [hA] at hnot; exact Option.noConfusion hnot
  · rw [hI] at hnot; exact Option.noConfusion hnot
  · rw [hPB] at hnot; exact Option.noConfusion hnot

/-- C8 amended: if the table has at least one data row, that first row
is well formed up to the column lookups (two time markers, an image,
and each required column present in the header resolving to an
in-range, parseable cell), and some required header name is absent,
then the extractor fails with the missing-column error and returns no
partial record set. -/
theorem missing_column_errors (header : List String) (r : HtmlRow)
    (rest : List HtmlRow) (m1 m2 : Int) (prov : String)
    (h1 : r.times.get? 0 = some m1) (h2 : r.times.get? 1 = some m2)
    (h3 : r.imgTitle = some prov)
    (hok : ∀ name ∈ requiredCols, colOkB header r.cells name = true)
    (hmiss : ∃ name ∈ requiredCols, name ∉ header) :
    get_data_from_html { header := header, rows := r :: rest }
      = .error .missingColumn := by
  have hrow := parseRow_missing_column header r m1 m2 prov h1 h2 h3 hok hmiss
  unfold get_data_from_html
  dsimp only
  rw [List.mapM_cons, hrow]
  rfl

/-- A table whose header lacks the required `Pair` column (and others)
but whose body is empty. -/
def c8emptyTable : HtmlTable := { header := ["Status"], rows := [] }

/-- C8 counterexample: with a required column (`Pair`) absent from the
header but no data rows, the extractor does not fail at all — it
returns an empty record set — because the column lookups only happen
inside the per-row loop. -/
theorem missing_column_cex :
    get_data_from_html c8emptyTable = .ok [] ∧
    "Pair" ∈ requiredCols ∧ "Pair" ∉ c8emptyTable.header :=
  ⟨rfl, by decide, by decide⟩

/-- A header lacking `Invested`, with an otherwise well-formed row. -/
def c8header : List String :=
  ["Pair", "Status", "Buy Price", "Sell Price", "Amount", "Profit BTC"]

/-- A row matching `c8header`: both markers, an image, six cells. -/
def c8row : HtmlRow :=
  { times := [1000, 2000]
  , imgTitle := some "SignalCo"
  , cells := ["BTC/USDT", "Closed", "1", "2", "3", "5"] }

/-- C8 amended witness: the single-row table missing `Invested` fails
with the missing-column error. -/
theorem missing_column_errors_witness :
    get_data_from_html { header := c8header, rows := [c8row] }
      = .error .missingColumn :=
  missing_column_errors c8header c8row [] 1000 2000 "SignalCo" rfl rfl rfl
    (by decide) (by decide)
